import Mathlib

/-!
Verification model of the STT backend abstraction of mycroft-core-zh,
file src/mycroft/stt/__init__.py.

Python strings used for character-level reasoning (the language tag
normalizer) are modelled as lists of Unicode code points; strings that are
only compared for equality (module names, tokens, transcripts) are modelled
as Lean String.  Python exceptions reaching a caller are modelled with
Except; a Python value that may be None is modelled with Option.
-/

/-- Errors raised by the code under src/mycroft/stt/__init__.py and its
collaborators: HTTPError carries the HTTP status code of its response
(e.response.status_code), ValueError carries its message, and every other
exception class is collapsed into otherError with a tag. -/
inductive PyErr where
  | httpError (status : Nat)
  | valueError (msg : String)
  | otherError (tag : String)
deriving DecidableEq

/-- Python str(x) applied to credential.get(...), which returns None when the
key is absent: str(None) is the four character string None. -/
def pyStr : Option String → String
  | none => "None"
  | some s => s

/-- Python expression language or self.lang, where language is an optional
string argument: None and the empty string are falsy, any other string is
truthy and wins. -/
def pyOrLang (language : Option String) (lang : String) : String :=
  match language with
  | some l => if l = "" then lang else l
  | none => lang

/-- requires_pairing (src/mycroft/stt/__init__.py lines 285-304): run the
wrapped execution; on HTTPError with response status 401 swallow the error
and return the fixed phrase pair my device; re-raise anything else.  The
argument is the outcome of calling the wrapped function. -/
def requires_pairing (result : Except PyErr String) : Except PyErr String :=
  match result with
  | Except.ok t => Except.ok t
  | Except.error (PyErr.httpError status) =>
      if status = 401 then Except.ok "pair my device"
      else Except.error (PyErr.httpError status)
  | Except.error e => Except.error e

/-- TokenSTT.__init__ (lines 71-75): self.token = str(self.credential.get("token")).
The credential dict is modelled as an association list from key to string
value; a missing key gives None, and str of None gives the string None. -/
def TokenSTT.token (credential : List (String × String)) : String :=
  pyStr (credential.lookup "token")

/-- Supported language allow-list of IBMSTT.execute (lines 167-171). -/
def ibmSupportedLanguages : List String :=
  ["ar-AR", "pt-BR", "zh-CN", "nl-NL", "en-GB", "en-US", "fr-FR",
   "de-DE", "it-IT", "ja-JP", "ko-KR", "es-AR", "es-ES", "es-CL",
   "es-CO", "es-MX", "es-PE"]

/-- IBMSTT.execute (lines 157-215) up to the point where the HTTP request is
issued.  Returns the updated self.lang field together with the outcome of
the local checks: a raised ValueError, or ok carrying the token that is sent
as the HTTP auth pair (apikey, token) of the issued request.  Response
handling is external to this model (the response comes from the network).
Note that self.lang is mutated before the supported-language check, so the
mutation survives an unsupported-language ValueError. -/
def IBMSTT.execute (token url lang : String) (language : Option String) :
    String × Except PyErr String :=
  if token = "" then
    (lang, Except.error (PyErr.valueError "API key for IBM Cloud is not defined"))
  else if url = "" then
    (lang, Except.error (PyErr.valueError "URL for IBM Cloud is not defined"))
  else if pyOrLang language lang ∈ ibmSupportedLanguages then
    (pyOrLang language lang, Except.ok token)
  else
    (pyOrLang language lang,
     Except.error (PyErr.valueError "Unsupported language for IBM STT"))

/-- GoogleSTT.execute (lines 106-108): self.lang = language or self.lang,
then recognizer.recognize_google(audio, self.token, self.lang).  The
recognizer call is external and passed in as a function; the result pairs the
updated self.lang field with the value returned to the caller. -/
def GoogleSTT.execute {γ : Type} (recognize : γ → String → String → String)
    (token lang : String) (audio : γ) (language : Option String) :
    String × String :=
  (pyOrLang language lang, recognize audio token (pyOrLang language lang))

/-- Supported language list of YandexSTT.execute (line 245). -/
def yandexSupportedLanguages : List String := ["en-US", "ru-RU", "tr-TR"]

/-- YandexSTT.execute (lines 243-282) up to the point where the HTTP request
is issued: self.lang = language or self.lang, raise on unsupported language,
otherwise issue the request authorized with the API key.  Returns the updated
self.lang field and the local outcome, ok carrying the API key sent with the
issued request. -/
def YandexSTT.execute (api_key lang : String) (language : Option String) :
    String × Except PyErr String :=
  if pyOrLang language lang ∈ yandexSupportedLanguages then
    (pyOrLang language lang, Except.ok api_key)
  else
    (pyOrLang language lang,
     Except.error (PyErr.valueError "Unsupported language for Yandex STT"))

/-- The keys of the static STTFactory.CLASSES table (lines 732-749). -/
def builtinModules : List String :=
  ["mycroft", "google", "google_cloud", "google_cloud_streaming", "wit",
   "ibm", "kaldi", "bing", "govivace", "houndify", "deepspeech_server",
   "deepspeech_stream_server", "mycroft_deepspeech", "yandex", "baidu",
   "microsoft"]

/-- Environment of STTFactory.create: instantiate m is the outcome of
constructing the class stored under m in the built-in CLASSES table (so
instantiate "mycroft" is the outcome of MycroftSTT()), and loadPlugin m is
the outcome of load_stt_plugin(m) followed by construction of the returned
class.  Construction outcomes depend on configuration and imports, hence the
parameterization. -/
structure FactoryEnv (β : Type) where
  instantiate : String → Except PyErr β
  loadPlugin : String → Except PyErr β

/-- The body of the try block of STTFactory.create (lines 757-763): built-in
table first, plugin loader otherwise, then instantiation. -/
def resolveModule {β : Type} (env : FactoryEnv β) (module : String) :
    Except PyErr β :=
  if module ∈ builtinModules then env.instantiate module
  else env.loadPlugin module

/-- STTFactory.create (lines 751-772).  The configured module defaults to
mycroft (config.get("module", "mycroft")); on any exception from lookup or
construction, a non-default module falls back to constructing MycroftSTT
(the CLASSES entry for mycroft), while a failing default re-raises.  The
model assumes reading the configuration itself succeeds, which is the only
way the except branch can see the module variable bound. -/
def STTFactory.create {β : Type} (env : FactoryEnv β)
    (cfgModule : Option String) : Except PyErr β :=
  match resolveModule env (cfgModule.getD "mycroft") with
  | Except.ok backend => Except.ok backend
  | Except.error e =>
      if cfgModule.getD "mycroft" ≠ "mycroft" then env.instantiate "mycroft"
      else Except.error e

/-- Outcome of one run of a StreamThread subclass implementation of
handle_audio_stream over a finished chunk sequence: the final value of the
self.text field of the thread, and whether the call raised.  A raised
exception inside Thread.run is caught and logged by the Python threading
machinery, so the thread still finishes and join() still returns. -/
structure HandlerOutcome where
  text : Option String
  raised : Bool
deriving DecidableEq

/-- The mutable state a StreamThread carries that the owner reads back:
self.text, initialized to None in StreamThread.__init__ (line 380). -/
structure StreamThreadState where
  text : Option String
deriving DecidableEq

/-- State of a StreamingSTT instance (lines 408-472): the resolved language,
the current worker thread (self.stream, None when idle) and the current
handoff queue (self.queue, None after a stop).  Queue items are Option α:
some chunk for data, none for the end-of-stream sentinel put by stream_stop
(the Python None sentinel, distinguished by type from every chunk). -/
structure StreamingState (α : Type) where
  lang : String
  stream : Option StreamThreadState
  queue : Option (List (Option α))
deriving DecidableEq

/-- StreamingSTT.__init__ (lines 411-414): no worker, no queue. -/
def StreamingSTT.init {α : Type} (lang : String) : StreamingState α :=
  ⟨lang, none, none⟩

/-- StreamThread._get_data (lines 382-389): the generator that dequeues
items and yields chunks until it dequeues the None sentinel.  Applied to the
final FIFO contents of the queue it gives exactly the chunk sequence the
handler consumes. -/
def StreamThread.get_data {α : Type} : List (Option α) → List α
  | [] => []
  | none :: _ => []
  | some d :: rest => d :: StreamThread.get_data rest

/-- The exact sequence of items the consumer loop of StreamThread._get_data
dequeues from a queue, sentinel included: everything up to and including the
first None. -/
def observedItems {α : Type} : List (Option α) → List (Option α)
  | [] => []
  | none :: _ => [none]
  | some d :: rest => some d :: observedItems rest

/-- The items the worker dequeues for a session ended now: stream_stop puts
the None sentinel at the back of the queue and the worker consumes in FIFO
order. -/
def workerDequeues {α : Type} (s : StreamingState α) :
    Option (List (Option α)) :=
  s.queue.map fun q => observedItems (q ++ [none])

/-- StreamingSTT.stream_stop (lines 439-456).  With an active worker: put
the None sentinel, join the worker (the handler finishes consuming the
chunks _get_data yields from the queue, and the threading machinery swallows
any exception it raised), read self.stream.text, clear self.stream and
self.queue, return the text.  With no active worker: return None.  The outer
Option models an exception reaching the caller: the source would raise an
AttributeError in the unreachable configuration where a worker exists but
the queue is None.  The handler argument is the handle_audio_stream
implementation of the concrete StreamThread subclass, as a function of the
chunk sequence it consumes. -/
def stream_stop {α : Type} (handler : List α → HandlerOutcome)
    (s : StreamingState α) :
    Option (StreamingState α × Option String) :=
  match s.stream with
  | some _ =>
      match s.queue with
      | none => none
      | some q =>
          some (⟨s.lang, none, none⟩,
                (handler (StreamThread.get_data (q ++ [none]))).text)
  | none => some (s, none)

/-- StreamingSTT.stream_data (lines 431-437): self.queue.put(data).  The
outer Option models the AttributeError the source raises when no queue
exists. -/
def stream_data {α : Type} (s : StreamingState α) (d : α) :
    Option (StreamingState α) :=
  match s.queue with
  | some q => some ⟨s.lang, s.stream, some (q ++ [some d])⟩
  | none => none

/-- StreamingSTT.stream_start (lines 416-429): first run the full
stream_stop sequence, then bind a fresh empty queue and a fresh worker with
text None (both concrete create_streaming_thread implementations replace
self.queue with a fresh Queue and hand it to the new thread).  The local
variable language = language or self.lang is computed and never used by the
source, which the model mirrors. -/
def stream_start {α : Type} (handler : List α → HandlerOutcome)
    (s : StreamingState α) (language : Option String) :
    Option (StreamingState α) :=
  (stream_stop handler s).map fun p =>
    let _language := pyOrLang language p.1.lang
    ⟨p.1.lang, some ⟨none⟩, some []⟩

/-- StreamingSTT.execute (lines 458-460): return self.stream_stop(), with
both the audio and the language argument unused. -/
def StreamingSTT.execute {α β : Type} (handler : List α → HandlerOutcome)
    (s : StreamingState α) (audio : β) (language : Option String) :
    Option (StreamingState α × Option String) :=
  stream_stop handler s

/-- One result inside a streaming response of the Google Cloud transport
consumed by GoogleStreamThread.handle_audio_stream (lines 516-522); the
transcript field carries alternatives[0].transcript, the only alternative
the source reads. -/
structure RecognitionResult where
  is_final : Bool
  transcript : String
deriving DecidableEq

/-- One response yielded by client.streaming_recognize in
GoogleStreamThread.handle_audio_stream. -/
structure StreamingResponse where
  results : List RecognitionResult
deriving DecidableEq

/-- One iteration of the response loop of
GoogleStreamThread.handle_audio_stream: if res.results and
res.results[0].is_final, overwrite self.text with the transcript. -/
def googleStep (text : Option String) (res : StreamingResponse) :
    Option String :=
  match res.results with
  | r :: _ => if r.is_final then some r.transcript else text
  | [] => text

/-- GoogleStreamThread.handle_audio_stream (lines 516-522) as a handler: the
vendor transport yields the given responses for the consumed audio and then
either finishes or raises (transportRaises); self.text starts at None and is
folded through the response loop.  A raise mid-iteration leaves whatever
self.text already holds. -/
def GoogleStreamThread.handle {α : Type} (responses : List StreamingResponse)
    (transportRaises : Bool) : List α → HandlerOutcome :=
  fun _audio => ⟨responses.foldl googleStep none, transportRaises⟩

/-- A Python string as its list of Unicode code points, used where the
source manipulates individual characters. -/
abbrev PyStr := List Nat

/-- Python str.split("-") on a code point list; 45 is the dash. -/
def splitOnDash : PyStr → List PyStr
  | [] => [[]]
  | c :: cs =>
      if c = 45 then [] :: splitOnDash cs
      else
        match splitOnDash cs with
        | [] => [[c]]
        | g :: gs => (c :: g) :: gs

/-- Python str.lower on one ASCII code point (language tags are ASCII). -/
def lowerCode (c : Nat) : Nat :=
  if 65 ≤ c ∧ c ≤ 90 then c + 32 else c

/-- Python str.upper on one ASCII code point. -/
def upperCode (c : Nat) : Nat :=
  if 97 ≤ c ∧ c ≤ 122 then c - 32 else c

/-- Python str.lower on a code point list. -/
def pyLower : PyStr → PyStr := List.map lowerCode

/-- Python str.upper on a code point list. -/
def pyUpper : PyStr → PyStr := List.map upperCode

/-- STT.init_language (lines 43-50): split the configured locale string on
the dash; with exactly two parts return lower(first) + dash + upper(second),
otherwise return the string unchanged.  The argument is the configured lang
value (the source reads it from config with default en-US). -/
def STT.init_language (lang : PyStr) : PyStr :=
  match splitOnDash lang with
  | [a, b] => pyLower a ++ 45 :: pyUpper b
  | _ => lang

theorem splitOnDash_no_dash (l : PyStr) (h : 45 ∉ l) : splitOnDash l = [l] := by
  induction l with
  | nil => rfl
  | cons c cs ih =>
      have hc : ¬c = 45 := fun hcc => h (hcc ▸ List.mem_cons_self c cs)
      have hcs : 45 ∉ cs := fun hm => h (List.mem_cons_of_mem _ hm)
      simp only [splitOnDash, if_neg hc, ih hcs]

theorem splitOnDash_append (p r : PyStr) (hp : 45 ∉ p) :
    splitOnDash (p ++ 45 :: r) = p :: splitOnDash r := by
  induction p with
  | nil => simp [splitOnDash]
  | cons c cs ih =>
      have hc : ¬c = 45 := fun hcc => hp (hcc ▸ List.mem_cons_self c cs)
      have hcs : 45 ∉ cs := fun hm => hp (List.mem_cons_of_mem _ hm)
      simp only [List.cons_append, splitOnDash, if_neg hc, List.append_eq,
        ih hcs]

theorem lowerCode_idem (c : Nat) : lowerCode (lowerCode c) = lowerCode c := by
  unfold lowerCode
  split
  · rename_i h
    rw [if_neg (by omega)]
  · rfl

theorem upperCode_idem (c : Nat) : upperCode (upperCode c) = upperCode c := by
  unfold upperCode
  split
  · rename_i h
    rw [if_neg (by omega)]
  · rfl

theorem lowerCode_ne_dash (c : Nat) (h : c ≠ 45) : lowerCode c ≠ 45 := by
  unfold lowerCode
  split <;> omega

theorem upperCode_ne_dash (c : Nat) (h : c ≠ 45) : upperCode c ≠ 45 := by
  unfold upperCode
  split <;> omega

theorem pyLower_no_dash (p : PyStr) (hp : 45 ∉ p) : 45 ∉ pyLower p := by
  intro hmem
  rcases List.mem_map.mp hmem with ⟨c, hcp, hc45⟩
  exact lowerCode_ne_dash c (fun hcc => hp (hcc ▸ hcp)) hc45

theorem pyUpper_no_dash (r : PyStr) (hr : 45 ∉ r) : 45 ∉ pyUpper r := by
  intro hmem
  rcases List.mem_map.mp hmem with ⟨c, hcp, hc45⟩
  exact upperCode_ne_dash c (fun hcc => hr (hcc ▸ hcp)) hc45

theorem pyLower_idem (p : PyStr) : pyLower (pyLower p) = pyLower p := by
  induction p with
  | nil => rfl
  | cons c cs ih =>
      simp only [pyLower, List.map_cons] at ih ⊢
      rw [lowerCode_idem, ih]

theorem pyUpper_idem (r : PyStr) : pyUpper (pyUpper r) = pyUpper r := by
  induction r with
  | nil => rfl
  | cons c cs ih =>
      simp only [pyUpper, List.map_cons] at ih ⊢
      rw [upperCode_idem, ih]

/-- Claim C1: for the session stream_start, stream_data a, stream_data b,
stream_stop, whatever the handler, the worker consumer loop dequeues exactly
the items some a, some b, sentinel, in that order: the chunks in submission
order, each exactly once, the generator yields exactly the chunk list a, b,
and the sentinel is the last item observed. -/
theorem stream_session_delivers_in_order {α : Type}
    (handler : List α → HandlerOutcome) (a b : α) (lang : String) :
    ((stream_start handler (StreamingSTT.init lang) none).bind fun s₁ =>
      (stream_data s₁ a).bind fun s₂ =>
        (stream_data s₂ b).map fun s₃ => workerDequeues s₃)
      = some (some [some a, some b, none]) ∧
    StreamThread.get_data ([some a, some b, none] : List (Option α))
      = [a, b] ∧
    ([some a, some b, none] : List (Option α)).getLast? = some none :=
  ⟨rfl, rfl, rfl⟩

/-- Claim C2, counterexample to the claim as stated: a worker whose
transport yields one final hypothesis hello and then raises (realizable in
GoogleStreamThread.handle_audio_stream, whose response iterator can raise
after a final result) makes stream_stop return the transcript hello, not the
no-result value None the claim promises for every erroring worker. -/
theorem stream_stop_can_return_text_after_error :
    ((stream_start (GoogleStreamThread.handle [⟨[⟨true, "hello"⟩]⟩] true)
        (StreamingSTT.init "en-US" : StreamingState Unit) none).bind
      (stream_stop (GoogleStreamThread.handle [⟨[⟨true, "hello"⟩]⟩] true)))
      = some (StreamingSTT.init "en-US", some "hello") ∧
    (some "hello" : Option String) ≠ none :=
  ⟨rfl, fun h => Option.noConfusion h⟩

/-- Claim C2 as amended: for every active stream whose worker raises,
stream_stop still terminates and returns (no exception reaches its caller),
releases the worker and queue references, and returns the text the worker
had recorded, which is the no-result value None exactly when the worker
recorded none before the error.  The conclusion does not depend on the
raised flag at all: the threading machinery swallows the error. -/
theorem stream_stop_terminates_after_handler_error {α : Type}
    (handler : List α → HandlerOutcome) (s : StreamingState α)
    (th : StreamThreadState) (q : List (Option α))
    (hs : s.stream = some th) (hq : s.queue = some q)
    (hraised : (handler (StreamThread.get_data (q ++ [none]))).raised = true) :
    stream_stop handler s
      = some (⟨s.lang, none, none⟩,
              (handler (StreamThread.get_data (q ++ [none]))).text) := by
  unfold stream_stop
  rw [hs, hq]

/-- Witness for the amended claim C2: a worker raising before any transport
response makes stream_stop return, with the no-result value None as text. -/
theorem stream_stop_terminates_after_handler_error_witness :
    stream_stop (GoogleStreamThread.handle [] true)
        (⟨"en-US", some ⟨none⟩, some []⟩ : StreamingState Unit)
      = some (⟨"en-US", none, none⟩, none) := by
  have h := stream_stop_terminates_after_handler_error
    (GoogleStreamThread.handle [] true)
    (⟨"en-US", some ⟨none⟩, some []⟩ : StreamingState Unit) ⟨none⟩ [] rfl rfl
    rfl
  exact h

/-- Claim C6: stream_stop with no active worker returns the no-result value
None, raises nothing, and leaves the state unchanged. -/
theorem stream_stop_without_active_stream {α : Type}
    (handler : List α → HandlerOutcome) (s : StreamingState α)
    (hs : s.stream = none) : stream_stop handler s = some (s, none) := by
  unfold stream_stop
  rw [hs]

/-- Witness for claim C6: stopping a freshly constructed streaming backend
returns None without error. -/
theorem stream_stop_without_active_stream_witness :
    stream_stop (fun _ => ⟨none, false⟩)
        (StreamingSTT.init "en-US" : StreamingState Unit)
      = some (StreamingSTT.init "en-US", none) :=
  stream_stop_without_active_stream (fun _ => ⟨none, false⟩)
    (StreamingSTT.init "en-US") rfl

/-- Claim C7: stream_start first performs the full stop sequence on an
existing worker, so from any state stream_start equals stream_stop followed
by stream_start, and in particular two stream_start calls with no
intervening stream_stop behave identically to stream_start, stream_stop,
stream_start.  At most one worker and one queue exist at any time by
construction of the state. -/
theorem stream_start_stops_previous {α : Type}
    (handler : List α → HandlerOutcome) (s : StreamingState α)
    (l l₁ l₂ : Option String) :
    stream_start handler s l
        = (stream_stop handler s).bind
            (fun p => stream_start handler p.1 l) ∧
    ((stream_start handler s l₁).bind fun s₁ => stream_start handler s₁ l₂)
        = ((stream_start handler s l₁).bind fun s₁ =>
            (stream_stop handler s₁).bind
              fun p => stream_start handler p.1 l₂) := by
  obtain ⟨lang, stream, queue⟩ := s
  constructor
  · cases stream <;> cases queue <;> rfl
  · cases stream <;> cases queue <;> rfl

/-- Claim C9: StreamingSTT.execute ignores both the audio buffer and the
language argument and returns exactly stream_stop; two calls with different
audio and language are identical. -/
theorem streaming_execute_ignores_arguments {α β : Type}
    (handler : List α → HandlerOutcome) (s : StreamingState α)
    (audio audio₂ : β) (l l₂ : Option String) :
    StreamingSTT.execute handler s audio l = stream_stop handler s ∧
    StreamingSTT.execute handler s audio l
        = StreamingSTT.execute handler s audio₂ l₂ :=
  ⟨rfl, rfl⟩

/-- Claim C3: create resolves the configured module through the built-in
table first and the plugin loader only otherwise; a successful resolution
and construction is returned as is; on any failure a non-default module
falls back to constructing the default mycroft backend, while a failing
default module propagates its original error with no further fallback. -/
theorem sttFactory_create_fallback {β : Type} (env : FactoryEnv β)
    (cfgModule : Option String) (b : β) (e : PyErr) :
    (cfgModule.getD "mycroft" ∈ builtinModules →
      resolveModule env (cfgModule.getD "mycroft")
        = env.instantiate (cfgModule.getD "mycroft")) ∧
    (cfgModule.getD "mycroft" ∉ builtinModules →
      resolveModule env (cfgModule.getD "mycroft")
        = env.loadPlugin (cfgModule.getD "mycroft")) ∧
    (resolveModule env (cfgModule.getD "mycroft") = Except.ok b →
      STTFactory.create env cfgModule = Except.ok b) ∧
    (resolveModule env (cfgModule.getD "mycroft") = Except.error e →
      cfgModule.getD "mycroft" ≠ "mycroft" →
      STTFactory.create env cfgModule = env.instantiate "mycroft") ∧
    (resolveModule env (cfgModule.getD "mycroft") = Except.error e →
      cfgModule.getD "mycroft" = "mycroft" →
      STTFactory.create env cfgModule = Except.error e) := by
  refine ⟨fun h => ?_, fun h => ?_, fun h => ?_, fun h hne => ?_,
    fun h heq => ?_⟩
  · unfold resolveModule
    rw [if_pos h]
  · unfold resolveModule
    rw [if_neg h]
  · unfold STTFactory.create
    rw [h]
  · unfold STTFactory.create
    rw [h]
    show (if cfgModule.getD "mycroft" ≠ "mycroft" then env.instantiate "mycroft"
      else Except.error e) = env.instantiate "mycroft"
    rw [if_pos hne]
  · unfold STTFactory.create
    rw [h]
    show (if cfgModule.getD "mycroft" ≠ "mycroft" then env.instantiate "mycroft"
      else Except.error e) = Except.error e
    rw [if_neg (fun hne => hne heq)]

/-- Witness for claim C3, over an environment where only the mycroft entry
constructs: a nonexistent module falls back to the default backend, a
built-in module whose construction fails falls back to the default backend,
and with an environment where mycroft construction itself fails, the
original error propagates. -/
theorem sttFactory_create_fallback_witness :
    STTFactory.create
        (⟨fun m => if m = "mycroft" then Except.ok "MycroftSTT"
            else Except.error (PyErr.otherError "construction failed"),
          fun _ => Except.error (PyErr.otherError "plugin not found")⟩ :
          FactoryEnv String)
        (some "does-not-exist") = Except.ok "MycroftSTT" ∧
    STTFactory.create
        (⟨fun m => if m = "mycroft" then Except.ok "MycroftSTT"
            else Except.error (PyErr.otherError "construction failed"),
          fun _ => Except.error (PyErr.otherError "plugin not found")⟩ :
          FactoryEnv String)
        (some "google") = Except.ok "MycroftSTT" ∧
    STTFactory.create
        (⟨fun _ => Except.error (PyErr.otherError "boom"),
          fun _ => Except.error (PyErr.otherError "plugin not found")⟩ :
          FactoryEnv String)
        (some "mycroft") = Except.error (PyErr.otherError "boom") := by
  refine ⟨?_, ?_, ?_⟩
  · have h := sttFactory_create_fallback
      (⟨fun m => if m = "mycroft" then Except.ok "MycroftSTT"
          else Except.error (PyErr.otherError "construction failed"),
        fun _ => Except.error (PyErr.otherError "plugin not found")⟩ :
        FactoryEnv String)
      (some "does-not-exist") "MycroftSTT" (PyErr.otherError "plugin not found")
    exact h.2.2.2.1 rfl (by decide)
  · have h := sttFactory_create_fallback
      (⟨fun m => if m = "mycroft" then Except.ok "MycroftSTT"
          else Except.error (PyErr.otherError "construction failed"),
        fun _ => Except.error (PyErr.otherError "plugin not found")⟩ :
        FactoryEnv String)
      (some "google") "MycroftSTT" (PyErr.otherError "construction failed")
    exact h.2.2.2.1 rfl (by decide)
  · have h := sttFactory_create_fallback
      (⟨fun _ => Except.error (PyErr.otherError "boom"),
        fun _ => Except.error (PyErr.otherError "plugin not found")⟩ :
        FactoryEnv String)
      (some "mycroft") "unused" (PyErr.otherError "boom")
    exact h.2.2.2.2 rfl rfl

/-- Claim C4: the pairing wrapper returns a successful transcript unchanged,
turns an HTTPError with response status exactly 401 into the fixed phrase
pair my device, and re-raises an HTTPError with any other status as well as
every non-HTTP error class unchanged. -/
theorem requires_pairing_contract (t : String) (sc : Nat) (m tag : String) :
    requires_pairing (Except.ok t) = Except.ok t ∧
    requires_pairing (Except.error (PyErr.httpError 401))
        = Except.ok "pair my device" ∧
    (sc ≠ 401 →
      requires_pairing (Except.error (PyErr.httpError sc))
        = Except.error (PyErr.httpError sc)) ∧
    requires_pairing (Except.error (PyErr.valueError m))
        = Except.error (PyErr.valueError m) ∧
    requires_pairing (Except.error (PyErr.otherError tag))
        = Except.error (PyErr.otherError tag) := by
  refine ⟨rfl, rfl, fun h => ?_, rfl, rfl⟩
  unfold requires_pairing
  show (if sc = 401 then Except.ok "pair my device"
    else Except.error (PyErr.httpError sc)) = Except.error (PyErr.httpError sc)
  rw [if_neg h]

/-- Witness for claim C4 at concrete outcomes: success, a 401, a 404 and a
ValueError. -/
theorem requires_pairing_contract_witness :
    requires_pairing (Except.ok "hello") = Except.ok "hello" ∧
    requires_pairing (Except.error (PyErr.httpError 401))
        = Except.ok "pair my device" ∧
    requires_pairing (Except.error (PyErr.httpError 404))
        = Except.error (PyErr.httpError 404) ∧
    requires_pairing (Except.error (PyErr.valueError "bad"))
        = Except.error (PyErr.valueError "bad") := by
  have h := requires_pairing_contract "hello" 404 "bad" "other"
  exact ⟨h.1, h.2.1, h.2.2.1 (by decide), h.2.2.2.1⟩

/-- Claim C5, evaluation at the failing input: with a credential dict that
has no token entry, TokenSTT construction stores the truthy string None
(Python str of None), the not-defined guard of IBMSTT.execute does not fire,
and the first call proceeds to issue the HTTP request authorized with the
invalid credential None instead of raising locally. -/
theorem missing_token_issues_request :
    TokenSTT.token [] = "None" ∧
    (IBMSTT.execute (TokenSTT.token []) "https://example.com" "en-US"
        none).2
      = Except.ok "None" :=
  ⟨rfl, rfl⟩

/-- Claim C8: for every locale tag with exactly two dash separated parts,
init_language returns the first part lowercased, a dash, and the second part
uppercased, and applying init_language to an already normalized tag returns
it unchanged, so normalization is idempotent on such tags. -/
theorem init_language_normalizes (p r : PyStr) (hp : 45 ∉ p) (hr : 45 ∉ r) :
    STT.init_language (p ++ 45 :: r) = pyLower p ++ 45 :: pyUpper r ∧
    STT.init_language (pyLower p ++ 45 :: pyUpper r)
        = pyLower p ++ 45 :: pyUpper r := by
  constructor
  · unfold STT.init_language
    rw [splitOnDash_append p r hp, splitOnDash_no_dash r hr]
  · unfold STT.init_language
    rw [splitOnDash_append _ _ (pyLower_no_dash p hp),
      splitOnDash_no_dash _ (pyUpper_no_dash r hr)]
    show pyLower (pyLower p) ++ 45 :: pyUpper (pyUpper r) = _
    rw [pyLower_idem, pyUpper_idem]

/-- Witness for claim C8 at the tag zh-cn (code points 122 104 45 99 110):
normalization gives zh-CN (122 104 45 67 78) and is a fixed point there. -/
theorem init_language_normalizes_witness :
    STT.init_language [122, 104, 45, 99, 110] = [122, 104, 45, 67, 78] ∧
    STT.init_language [122, 104, 45, 67, 78] = [122, 104, 45, 67, 78] := by
  have h := init_language_normalizes [122, 104] [99, 110] (by decide)
    (by decide)
  exact ⟨h.1, h.2⟩

/-- Claim C10, counterexample to the claim as stated: the empty string is a
non-null language argument, yet Python treats it as falsy in language or
self.lang, so GoogleSTT.execute called with the empty string keeps the
stored language en-US instead of overwriting it. -/
theorem empty_language_override_not_stored :
    (GoogleSTT.execute (fun (_ : Unit) _ _ => "hi") "tok" "en-US" ()
        (some "")).1 = "en-US" ∧
    ("en-US" : String) ≠ "" :=
  ⟨rfl, by decide⟩

/-- Claim C10 as amended: for the synchronous backends with a per-call
language override (GoogleSTT, IBMSTT, YandexSTT), executing with a non-null,
non-empty language overwrites the stored language field with it, and a
subsequent call without a language argument uses that most recent override
(shown for GoogleSTT by the recognizer receiving it); an empty string
override is falsy in Python and leaves the field unchanged. -/
theorem nonempty_language_override_persists {γ : Type}
    (recognize : γ → String → String → String)
    (token lang url api_key : String) (audio audio₂ : γ) (l : String)
    (hl : l ≠ "") (htoken : ¬token = "") (hurl : ¬url = "") :
    (GoogleSTT.execute recognize token lang audio (some l)).1 = l ∧
    (GoogleSTT.execute recognize token
        (GoogleSTT.execute recognize token lang audio (some l)).1 audio₂
        none).2
      = recognize audio₂ token l ∧
    (IBMSTT.execute token url lang (some l)).1 = l ∧
    (YandexSTT.execute api_key lang (some l)).1 = l := by
  have hpy : pyOrLang (some l) lang = l := by
    unfold pyOrLang
    show (if l = "" then lang else l) = l
    rw [if_neg hl]
  refine ⟨?_, ?_, ?_, ?_⟩
  · unfold GoogleSTT.execute
    rw [hpy]
  · unfold GoogleSTT.execute
    rw [hpy]
    rfl
  · unfold IBMSTT.execute
    rw [if_neg htoken, if_neg hurl, hpy]
    split <;> rfl
  · unfold YandexSTT.execute
    rw [hpy]
    split <;> rfl

/-- Witness for the amended claim C10: overriding en-US with ru-RU sticks
for all three backends, and a later GoogleSTT call without a language uses
ru-RU. -/
theorem nonempty_language_override_persists_witness :
    (GoogleSTT.execute (fun (_ : Unit) _ l => l) "tok" "en-US" ()
        (some "ru-RU")).1 = "ru-RU" ∧
    (GoogleSTT.execute (fun (_ : Unit) _ l => l) "tok"
        (GoogleSTT.execute (fun (_ : Unit) _ l => l) "tok" "en-US" ()
          (some "ru-RU")).1 () none).2
      = "ru-RU" ∧
    (IBMSTT.execute "tok" "https://example.com" "en-US" (some "ru-RU")).1
      = "ru-RU" ∧
    (YandexSTT.execute "key" "en-US" (some "ru-RU")).1 = "ru-RU" := by
  have h := nonempty_language_override_persists (fun (_ : Unit) _ l => l)
    "tok" "en-US" "https://example.com" "key" () () "ru-RU" (by decide)
    (by decide) (by decide)
  exact ⟨h.1, h.2.1, h.2.2.1, h.2.2.2⟩
